import Mathlib

/-!
Verification of the brainsuite-platform-connector specification.

The backend core of the repository (Metric Normalizer, Sync Scheduler, OAuth
Session Orchestrator, Token Lifecycle Manager) is not present in the
source tree; those components are modelled from the specification text.
The frontend TypeScript that is present (auth interceptor, ApiService)
is embedded directly from its source.
-/

/-- Advertising platforms supported by the connector. -/
inductive Platform
  | META
  | TIKTOK
  | YOUTUBE
deriving DecidableEq, Repr

/-- Modelled from the spec: one platform-native report row handed to the
Metric Normalizer.  Monetary amounts arrive in micro-units (integers);
count metrics may be absent for a platform (e.g. no clicks field). -/
structure RawRow where
  asset_id : String
  report_date : String
  spend_micros : Int
  impressions : Nat
  clicks : Option Nat
  video_views : Option Nat
  conversions : Option Nat
  conversion_value_micros : Option Int
  average_cpm_scaled : Option Int
deriving DecidableEq, Repr

/-- One canonical (asset, date) performance row: monetary fields in
currency-major units as exact rationals, derived ratios optional
(null when the denominator was zero or an input field was absent). -/
structure PerformanceRecord where
  spend : Rat
  impressions : Nat
  clicks : Option Nat
  video_views : Option Nat
  conversions : Option Nat
  conversion_value : Option Rat
  ctr : Option Rat
  cpm : Option Rat
  vtr : Option Rat
  roas : Option Rat
deriving DecidableEq, Repr

/-- Micro-units per currency-major unit. -/
def microFactor : Rat := 1000000

/-- Modelled from the spec: the Metric Normalizer, a pure stateless
transform from a platform-native row to the canonical record.
Spend/cost in micro-units is divided by 1,000,000; the scaled
per-thousand-impression cost field is also divided by 1,000,000
(per-field rule, not by 1,000); ctr, vtr and roas are computed only
when the denominator is nonzero, otherwise null. -/
def normalizeRow (row : RawRow) : PerformanceRecord :=
  let spend : Rat := (row.spend_micros : Rat) / microFactor
  let convValue : Option Rat :=
    row.conversion_value_micros.map (fun m => (m : Rat) / microFactor)
  { spend := spend
    impressions := row.impressions
    clicks := row.clicks
    video_views := row.video_views
    conversions := row.conversions
    conversion_value := convValue
    ctr :=
      match row.clicks with
      | none => none
      | some c =>
        if row.impressions = 0 then none
        else some ((c : Rat) / (row.impressions : Rat))
    cpm := row.average_cpm_scaled.map (fun m => (m : Rat) / microFactor)
    vtr :=
      match row.video_views with
      | none => none
      | some v =>
        if row.impressions = 0 then none
        else some ((v : Rat) / (row.impressions : Rat))
    roas :=
      match convValue with
      | none => none
      | some cv => if spend = 0 then none else some (cv / spend) }

/-- The TIKTOK scenario from the spec: raw spend 1234500 micro-units
normalizes to 1.2345 currency-major units, with null ctr (no clicks
field present). -/
theorem tiktok_scenario_spend :
    (normalizeRow
      { asset_id := "a", report_date := "2024-01-01", spend_micros := 1234500,
        impressions := 50000, clicks := none, video_views := none,
        conversions := none, conversion_value_micros := none,
        average_cpm_scaled := none }).spend = (12345 : Rat) / 10000 ∧
    (normalizeRow
      { asset_id := "a", report_date := "2024-01-01", spend_micros := 1234500,
        impressions := 50000, clicks := none, video_views := none,
        conversions := none, conversion_value_micros := none,
        average_cpm_scaled := none }).ctr = none := by
  constructor
  · show ((1234500 : Int) : Rat) / microFactor = (12345 : Rat) / 10000
    norm_num [microFactor]
  · rfl

/-- C1: the normalized spend equals the micro-unit input divided by
1,000,000 exactly: multiplying the output back by 1,000,000 recovers the
input with no rounding, including inputs not divisible by 1,000,000. -/
theorem C1_spend_exact_micro_division (row : RawRow) :
    (normalizeRow row).spend = (row.spend_micros : Rat) / 1000000 ∧
    (normalizeRow row).spend * 1000000 = (row.spend_micros : Rat) := by
  constructor
  · rfl
  · show (row.spend_micros : Rat) / microFactor * 1000000 = _
    rw [microFactor]
    rw [div_mul_cancel₀]
    norm_num

theorem normalizeRow_spend (row : RawRow) :
    (normalizeRow row).spend = (row.spend_micros : Rat) / microFactor := rfl

theorem normalizeRow_cpm (row : RawRow) :
    (normalizeRow row).cpm =
      row.average_cpm_scaled.map (fun m => (m : Rat) / microFactor) := rfl

/-- C2: the scaled per-thousand-impression cost field is divided by
1,000,000 — and for any nonzero input this differs from dividing by
1,000 — so the output shares spend currency-major units; the rule is
applied to this field, not globally inferred. -/
theorem C2_cpm_divided_by_million (row : RawRow) (x : Int)
    (hx : row.average_cpm_scaled = some x) :
    (normalizeRow row).cpm = some ((x : Rat) / 1000000) ∧
    (x ≠ 0 → (normalizeRow row).cpm ≠ some ((x : Rat) / 1000)) := by
  have h1 : (normalizeRow row).cpm = some ((x : Rat) / 1000000) := by
    rw [normalizeRow_cpm, hx]
    rfl
  refine ⟨h1, ?_⟩
  intro hnz hcontra
  rw [h1] at hcontra
  have h2 : (x : Rat) / 1000000 = (x : Rat) / 1000 := Option.some.inj hcontra
  have h4 : (x : Rat) * 1000 = (x : Rat) * 1000000 :=
    (div_eq_div_iff (by norm_num) (by norm_num)).mp h2
  have h5 : (x : Rat) * 999000 = 0 := by linarith
  have h6 : (x : Rat) = 0 := by
    rcases mul_eq_zero.mp h5 with h | h
    · exact h
    · norm_num at h
  exact hnz (by exact_mod_cast h6)

/-- C2 witness at a concrete scaled input. -/
theorem C2_cpm_divided_by_million_witness :
    (normalizeRow
      { asset_id := "a", report_date := "2024-01-01", spend_micros := 0,
        impressions := 0, clicks := none, video_views := none,
        conversions := none, conversion_value_micros := none,
        average_cpm_scaled := some 2500000 }).cpm
        = some ((2500000 : Rat) / 1000000) := by
  exact (C2_cpm_divided_by_million _ 2500000 rfl).1

theorem normalizeRow_ctr (row : RawRow) :
    (normalizeRow row).ctr =
      match row.clicks with
      | none => none
      | some c =>
        if row.impressions = 0 then none
        else some ((c : Rat) / (row.impressions : Rat)) := rfl

theorem normalizeRow_vtr (row : RawRow) :
    (normalizeRow row).vtr =
      match row.video_views with
      | none => none
      | some v =>
        if row.impressions = 0 then none
        else some ((v : Rat) / (row.impressions : Rat)) := rfl

theorem normalizeRow_roas (row : RawRow) :
    (normalizeRow row).roas =
      match row.conversion_value_micros.map (fun m => (m : Rat) / microFactor) with
      | none => none
      | some cv =>
        if (row.spend_micros : Rat) / microFactor = 0 then none
        else some (cv / ((row.spend_micros : Rat) / microFactor)) := rfl

/-- C3: each derived metric is a value only when its denominator is
nonzero; with denominator 0 (or an absent numerator field) the canonical
field is null — never 0 and never a division error. -/
theorem C3_zero_denominator_gives_null (row : RawRow) :
    (row.impressions = 0 →
      (normalizeRow row).ctr = none ∧ (normalizeRow row).vtr = none) ∧
    (row.spend_micros = 0 → (normalizeRow row).roas = none) ∧
    (∀ c : Nat, row.clicks = some c → row.impressions ≠ 0 →
      (normalizeRow row).ctr = some ((c : Rat) / (row.impressions : Rat))) ∧
    (∀ w : Int, row.conversion_value_micros = some w → row.spend_micros ≠ 0 →
      (normalizeRow row).roas =
        some (((w : Rat) / 1000000) / ((row.spend_micros : Rat) / 1000000))) := by
  refine ⟨?_, ?_, ?_, ?_⟩
  · intro h0
    constructor
    · rw [normalizeRow_ctr]
      cases row.clicks with
      | none => rfl
      | some c => simp [h0]
    · rw [normalizeRow_vtr]
      cases row.video_views with
      | none => rfl
      | some v => simp [h0]
  · intro h0
    rw [normalizeRow_roas]
    have hz : (row.spend_micros : Rat) / microFactor = 0 := by
      rw [h0]; norm_num
    cases row.conversion_value_micros with
    | none => rfl
    | some w =>
      show (if (row.spend_micros : Rat) / microFactor = 0 then none
        else some (((w : Rat) / microFactor) /
          ((row.spend_micros : Rat) / microFactor))) = (none : Option Rat)
      rw [if_pos hz]
  · intro c hc h0
    rw [normalizeRow_ctr, hc]
    simp [h0]
  · intro w hw h0
    rw [normalizeRow_roas, hw]
    have hne : ¬ ((row.spend_micros : Rat) / microFactor = 0) := by
      rw [div_eq_zero_iff]
      push_neg
      refine ⟨?_, ?_⟩
      · exact_mod_cast h0
      · rw [microFactor]; norm_num
    show (if (row.spend_micros : Rat) / microFactor = 0 then none
      else some (((w : Rat) / microFactor) /
        ((row.spend_micros : Rat) / microFactor))) =
      some (((w : Rat) / 1000000) / ((row.spend_micros : Rat) / 1000000))
    rw [if_neg hne]
    rfl

/-- C3 witness: a row with zero impressions and zero spend yields null
ctr, vtr and roas; a row with nonzero denominators yields the ratios. -/
theorem C3_zero_denominator_gives_null_witness :
    ((normalizeRow
      { asset_id := "a", report_date := "2024-01-01", spend_micros := 0,
        impressions := 0, clicks := some 3, video_views := some 2,
        conversions := none, conversion_value_micros := some 5,
        average_cpm_scaled := none }).ctr = none ∧
     (normalizeRow
      { asset_id := "a", report_date := "2024-01-01", spend_micros := 0,
        impressions := 0, clicks := some 3, video_views := some 2,
        conversions := none, conversion_value_micros := some 5,
        average_cpm_scaled := none }).vtr = none) ∧
    (normalizeRow
      { asset_id := "a", report_date := "2024-01-01", spend_micros := 0,
        impressions := 0, clicks := some 3, video_views := some 2,
        conversions := none, conversion_value_micros := some 5,
        average_cpm_scaled := none }).roas = none := by
  refine ⟨(C3_zero_denominator_gives_null _).1 rfl,
    (C3_zero_denominator_gives_null _).2.1 rfl⟩

/-- Natural key of a canonical performance row. -/
structure RecordKey where
  asset_id : String
  report_date : String
deriving DecidableEq, Repr

def rowKey (row : RawRow) : RecordKey :=
  { asset_id := row.asset_id, report_date := row.report_date }

/-- The canonical store restricted to performance rows: a partial map
from the natural key (asset_id, report_date) to the stored record. -/
def Store : Type := RecordKey → Option PerformanceRecord

/-- Modelled from the spec: the Canonical Store accessor upsert —
overwrite the row under its natural key, never accumulate. -/
def upsert (k : RecordKey) (v : PerformanceRecord) (s : Store) : Store :=
  fun q => if q = k then some v else s q

def applyUpserts : List (RecordKey × PerformanceRecord) → Store → Store
  | [], s => s
  | kv :: t, s => applyUpserts t (upsert kv.1 kv.2 s)

/-- A sync date window. -/
structure DateRange where
  start_date : String
  end_date : String
deriving DecidableEq, Repr

/-- Modelled from the spec: the store effect of one sync cycle —
fetch the platform rows for the window (a deterministic function of the
window), normalize each, and upsert under the natural key. -/
def syncCycleStore (fetch : DateRange → List RawRow) (range : DateRange)
    (s : Store) : Store :=
  applyUpserts ((fetch range).map (fun row => (rowKey row, normalizeRow row))) s

/-- The value of the last upsert for key k in the list, if any. -/
def lastWrite (k : RecordKey) :
    List (RecordKey × PerformanceRecord) → Option PerformanceRecord
  | [] => none
  | kv :: t =>
    match lastWrite k t with
    | some v => some v
    | none => if kv.1 = k then some kv.2 else none

theorem applyUpserts_apply (rows : List (RecordKey × PerformanceRecord))
    (s : Store) (k : RecordKey) :
    applyUpserts rows s k =
      match lastWrite k rows with
      | some v => some v
      | none => s k := by
  induction rows generalizing s with
  | nil => rfl
  | cons kv t ih =>
    show applyUpserts t (upsert kv.1 kv.2 s) k = _
    rw [ih]
    show _ = (match
        (match lastWrite k t with
         | some v => some v
         | none => if kv.1 = k then some kv.2 else none) with
      | some v => some v
      | none => s k)
    cases lastWrite k t with
    | some v => rfl
    | none =>
      show upsert kv.1 kv.2 s k = _
      unfold upsert
      by_cases h : kv.1 = k
      · subst h
        simp
      · rw [if_neg h]
        exact if_neg (fun hh => h hh.symm)

/-- C4: running one sync cycle twice over the same date range leaves the
canonical store identical to running it once — natural-key upsert
overwrites and never accumulates, so sync is idempotent. -/
theorem C4_sync_cycle_idempotent (fetch : DateRange → List RawRow)
    (range : DateRange) (s : Store) :
    syncCycleStore fetch range (syncCycleStore fetch range s) =
      syncCycleStore fetch range s := by
  funext k
  unfold syncCycleStore
  rw [applyUpserts_apply, applyUpserts_apply]
  cases lastWrite k ((fetch range).map (fun row => (rowKey row, normalizeRow row))) with
  | some v => rfl
  | none => rfl

/-- Connection sync status. -/
inductive SyncStatus
  | ACTIVE
  | PENDING
  | EXPIRED
  | ERROR
deriving DecidableEq, Repr

/-- One linked advertising account (the connector-relevant fields). -/
structure Connection where
  platform : Platform
  credential : String
  sync_status : SyncStatus
  last_synced_at : Option Nat
  error_reason : Option String
  initial_sync_completed : Bool
deriving DecidableEq, Repr

/-- Modelled from the spec: the environment one sync cycle runs in — the
outcome of each fallible step (rate-limiter permit, platform fetch,
canonical-store upsert). -/
structure CycleEnv where
  permitGranted : Bool
  fetchResult : Except String (List RawRow)
  upsertOk : Bool

/-- The first step failure of a cycle run in the given environment,
if any. -/
def cycleFailure (env : CycleEnv) : Option String :=
  if env.permitGranted = false then some "rate limiter permit unavailable"
  else
    match env.fetchResult with
    | Except.error r => some r
    | Except.ok _ =>
      if env.upsertOk = false then some "canonical store upsert failed"
      else none

def markError (conn : Connection) (reason : String) : Connection :=
  { conn with sync_status := SyncStatus.ERROR, error_reason := some reason }

def markSuccess (conn : Connection) (now : Nat) : Connection :=
  { conn with
    sync_status := SyncStatus.ACTIVE
    last_synced_at := some now
    initial_sync_completed := true
    error_reason := none }

/-- Modelled from the spec: one Sync Scheduler cycle on one connection.
An EXPIRED connection short-circuits with no external platform call.
Otherwise the steps run in order; the first failure sets ERROR and
records the reason, leaving last_synced_at untouched.  A fully
successful cycle updates last_synced_at and initial_sync_completed.
The returned flag records whether an external platform call was made. -/
def runSyncCycle (conn : Connection) (env : CycleEnv) (now : Nat) :
    Connection × Bool :=
  if conn.sync_status = SyncStatus.EXPIRED then (conn, false)
  else if env.permitGranted = false then
    (markError conn "rate limiter permit unavailable", false)
  else
    match env.fetchResult with
    | Except.error r => (markError conn r, true)
    | Except.ok _ =>
      if env.upsertOk = false then
        (markError conn "canonical store upsert failed", true)
      else (markSuccess conn now, true)

/-- An event touching one connection: a scheduled sync cycle, or a user
re-authentication through the OAuth Orchestrator. -/
inductive ConnEvent
  | cycle (env : CycleEnv) (now : Nat)
  | reauth (newCred : String)

/-- Modelled from the spec: re-authentication replaces the credential
and resets sync_status to ACTIVE. -/
def stepConn (conn : Connection) : ConnEvent → Connection × Bool
  | ConnEvent.cycle env now => runSyncCycle conn env now
  | ConnEvent.reauth cred =>
    ({ conn with credential := cred, sync_status := SyncStatus.ACTIVE }, false)

/-- Run a sequence of events, collecting for each whether it made an
external platform call. -/
def runEvents (conn : Connection) : List ConnEvent → Connection × List Bool
  | [] => (conn, [])
  | e :: t =>
    let r := stepConn conn e
    let rest := runEvents r.1 t
    (rest.1, r.2 :: rest.2)

def isReauth : ConnEvent → Bool
  | ConnEvent.reauth _ => true
  | _ => false

theorem runSyncCycle_expired (conn : Connection) (env : CycleEnv) (now : Nat)
    (h : conn.sync_status = SyncStatus.EXPIRED) :
    runSyncCycle conn env now = (conn, false) := by
  unfold runSyncCycle
  rw [if_pos h]

theorem runEvents_expired_no_calls (evs : List ConnEvent) :
    ∀ conn : Connection, conn.sync_status = SyncStatus.EXPIRED →
    (∀ e ∈ evs, isReauth e = false) →
    runEvents conn evs = (conn, List.replicate evs.length false) := by
  induction evs with
  | nil => intro conn hexp hno; rfl
  | cons e t ih =>
    intro conn hexp hno
    cases e with
    | cycle env now =>
      have hstep : stepConn conn (ConnEvent.cycle env now) = (conn, false) :=
        runSyncCycle_expired conn env now hexp
      simp only [runEvents, hstep]
      rw [ih conn hexp (fun x hx => hno x (List.mem_cons_of_mem _ hx))]
      rfl
    | reauth cred =>
      have hcontra := hno (ConnEvent.reauth cred) (List.mem_cons_self _ _)
      simp [isReauth] at hcontra

/-- C5: while a connection is EXPIRED, every sync attempt short-circuits
with no external platform call (and leaves the connection EXPIRED),
until a re-authentication event, which replaces the credential and
resets sync_status to ACTIVE. -/
theorem C5_expired_short_circuits_until_reauth (conn : Connection)
    (evs : List ConnEvent) (hexp : conn.sync_status = SyncStatus.EXPIRED)
    (hno : ∀ e ∈ evs, isReauth e = false) :
    (∀ b ∈ (runEvents conn evs).2, b = false) ∧
    (runEvents conn evs).1 = conn ∧
    (∀ cred : String,
      (stepConn conn (ConnEvent.reauth cred)).1.sync_status = SyncStatus.ACTIVE ∧
      (stepConn conn (ConnEvent.reauth cred)).1.credential = cred) := by
  have hrun := runEvents_expired_no_calls evs conn hexp hno
  refine ⟨?_, ?_, ?_⟩
  · intro b hb
    rw [hrun] at hb
    exact List.eq_of_mem_replicate hb
  · rw [hrun]
  · intro cred
    exact ⟨rfl, rfl⟩

/-- C5 witness: a concrete EXPIRED connection, two sync-cycle events. -/
theorem C5_expired_short_circuits_until_reauth_witness :
    (∀ b ∈ (runEvents
      { platform := Platform.META, credential := "tok",
        sync_status := SyncStatus.EXPIRED, last_synced_at := none,
        error_reason := none, initial_sync_completed := false }
      [ConnEvent.cycle
        { permitGranted := true, fetchResult := Except.ok [], upsertOk := true } 5,
       ConnEvent.cycle
        { permitGranted := true, fetchResult := Except.ok [], upsertOk := true } 9]).2,
      b = false) ∧
    (stepConn
      { platform := Platform.META, credential := "tok",
        sync_status := SyncStatus.EXPIRED, last_synced_at := none,
        error_reason := none, initial_sync_completed := false }
      (ConnEvent.reauth "newtok")).1.sync_status = SyncStatus.ACTIVE := by
  have h := C5_expired_short_circuits_until_reauth
    { platform := Platform.META, credential := "tok",
      sync_status := SyncStatus.EXPIRED, last_synced_at := none,
      error_reason := none, initial_sync_completed := false }
    [ConnEvent.cycle
      { permitGranted := true, fetchResult := Except.ok [], upsertOk := true } 5,
     ConnEvent.cycle
      { permitGranted := true, fetchResult := Except.ok [], upsertOk := true } 9]
    rfl
    (by
      intro e he
      rcases List.mem_cons.mp he with h1 | h2
      · subst h1; rfl
      · rcases List.mem_cons.mp h2 with h3 | h4
        · subst h3; rfl
        · cases h4)
  exact ⟨h.1, (h.2.2 "newtok").1⟩

theorem runSyncCycle_eq (conn : Connection) (env : CycleEnv) (now : Nat)
    (hact : ¬ conn.sync_status = SyncStatus.EXPIRED) :
    runSyncCycle conn env now =
      match cycleFailure env with
      | some r => (markError conn r, env.permitGranted)
      | none => (markSuccess conn now, true) := by
  unfold runSyncCycle cycleFailure
  rw [if_neg hact]
  cases hpg : env.permitGranted with
  | false => simp
  | true =>
    cases hfetch : env.fetchResult with
    | error r => simp
    | ok rows =>
      cases hup : env.upsertOk with
      | false => simp
      | true => simp

/-- C6: whenever a sync cycle fails at any step, the connection ends the
cycle with sync_status ERROR and the failure reason recorded, and
last_synced_at is exactly what it was before the cycle; only a fully
successful cycle updates last_synced_at. -/
theorem C6_step_failure_sets_error_keeps_last_synced (conn : Connection)
    (env : CycleEnv) (now : Nat)
    (hact : ¬ conn.sync_status = SyncStatus.EXPIRED) :
    (∀ reason : String, cycleFailure env = some reason →
      (runSyncCycle conn env now).1.sync_status = SyncStatus.ERROR ∧
      (runSyncCycle conn env now).1.error_reason = some reason ∧
      (runSyncCycle conn env now).1.last_synced_at = conn.last_synced_at) ∧
    (cycleFailure env = none →
      (runSyncCycle conn env now).1.last_synced_at = some now) := by
  have heq := runSyncCycle_eq conn env now hact
  constructor
  · intro reason hfail
    rw [heq, hfail]
    exact ⟨rfl, rfl, rfl⟩
  · intro hok
    rw [heq, hok]
    rfl

/-- C6 witness: an ACTIVE connection whose fetch step fails. -/
theorem C6_step_failure_sets_error_keeps_last_synced_witness :
    (runSyncCycle
      { platform := Platform.TIKTOK, credential := "tok",
        sync_status := SyncStatus.ACTIVE, last_synced_at := some 42,
        error_reason := none, initial_sync_completed := true }
      { permitGranted := true, fetchResult := Except.error "fetch timeout",
        upsertOk := true } 7).1.sync_status = SyncStatus.ERROR ∧
    (runSyncCycle
      { platform := Platform.TIKTOK, credential := "tok",
        sync_status := SyncStatus.ACTIVE, last_synced_at := some 42,
        error_reason := none, initial_sync_completed := true }
      { permitGranted := true, fetchResult := Except.error "fetch timeout",
        upsertOk := true } 7).1.error_reason = some "fetch timeout" ∧
    (runSyncCycle
      { platform := Platform.TIKTOK, credential := "tok",
        sync_status := SyncStatus.ACTIVE, last_synced_at := some 42,
        error_reason := none, initial_sync_completed := true }
      { permitGranted := true, fetchResult := Except.error "fetch timeout",
        upsertOk := true } 7).1.last_synced_at = some 42 :=
  (C6_step_failure_sets_error_keeps_last_synced
    { platform := Platform.TIKTOK, credential := "tok",
      sync_status := SyncStatus.ACTIVE, last_synced_at := some 42,
      error_reason := none, initial_sync_completed := true }
    { permitGranted := true, fetchResult := Except.error "fetch timeout",
      upsertOk := true } 7 (by decide)).1 "fetch timeout" rfl

/-- Ephemeral state for one in-progress linking flow. -/
structure OAuthSession where
  session_id : String
  platform : Platform
  organization : String
  created_at : Nat
  accounts : List String
deriving DecidableEq, Repr

/-- The server-held Orchestrator state: live sessions plus the ids of
the PlatformConnections created so far. -/
structure OrchState where
  sessions : List OAuthSession
  connections : List String
deriving DecidableEq, Repr

/-- Modelled from the spec: initiate builds a fresh session and
supersedes (deletes) any prior live session for the same
(organization, platform) pair. -/
def initiate (st : OrchState) (platform : Platform) (org : String)
    (newId : String) (now : Nat) : OrchState :=
  { st with
    sessions :=
      { session_id := newId, platform := platform, organization := org,
        created_at := now, accounts := [] } ::
      st.sessions.filter
        (fun s => decide (¬ (s.platform = platform ∧ s.organization = org))) }

/-- Read-only poll of a session by id (the UI popup-close handshake). -/
def getSession (st : OrchState) (sid : String) : Option OAuthSession :=
  st.sessions.find? (fun s => decide (s.session_id = sid))

/-- At most one live session per (organization, platform) pair. -/
def atMostOnePerPair (l : List OAuthSession) : Prop :=
  l.Pairwise (fun a b => ¬ (a.platform = b.platform ∧ a.organization = b.organization))

/-- C7: initiating a new session for a (organization, platform) pair
deletes the prior live session for that pair — polling the superseded id
afterwards finds nothing — and the one-live-session-per-pair invariant
is preserved. -/
theorem C7_initiate_supersedes_prior_session (st : OrchState) (p : Platform)
    (org newId : String) (now : Nat) (old : OAuthSession)
    (hmem : old ∈ st.sessions) (hp : old.platform = p)
    (ho : old.organization = org) (hid : old.session_id ≠ newId)
    (huniq : ∀ s ∈ st.sessions, s.session_id = old.session_id → s = old) :
    getSession (initiate st p org newId now) old.session_id = none ∧
    (atMostOnePerPair st.sessions →
      atMostOnePerPair (initiate st p org newId now).sessions) := by
  constructor
  · rw [getSession, List.find?_eq_none]
    intro s hs
    simp only [initiate, List.mem_cons] at hs
    rcases hs with hs | hs
    · subst hs
      simp only [decide_eq_true_eq]
      exact fun hh => hid hh.symm
    · rcases List.mem_filter.mp hs with ⟨hmem2, hpred⟩
      simp only [decide_eq_true_eq]
      intro hsid
      have hseq : s = old := huniq s hmem2 hsid
      subst hseq
      rw [decide_eq_true_eq] at hpred
      exact hpred ⟨hp, ho⟩
  · intro hinv
    simp only [initiate]
    constructor
    · intro s hs
      rcases List.mem_filter.mp hs with ⟨_, hpred⟩
      rw [decide_eq_true_eq] at hpred
      intro hcontra
      exact hpred ⟨hcontra.1.symm, hcontra.2.symm⟩
    · exact List.Pairwise.sublist (List.filter_sublist _) hinv

/-- C7 witness: two initiates for the same pair; polling the first
session id after the second initiate finds nothing. -/
theorem C7_initiate_supersedes_prior_session_witness :
    getSession
      (initiate
        { sessions := [{ session_id := "sid1", platform := Platform.META,
                         organization := "org1", created_at := 0, accounts := [] }],
          connections := [] }
        Platform.META "org1" "sid2" 10) "sid1" = none := by
  have h := C7_initiate_supersedes_prior_session
    { sessions := [{ session_id := "sid1", platform := Platform.META,
                     organization := "org1", created_at := 0, accounts := [] }],
      connections := [] }
    Platform.META "org1" "sid2" 10
    { session_id := "sid1", platform := Platform.META,
      organization := "org1", created_at := 0, accounts := [] }
    (by simp) rfl rfl (by decide)
    (by
      intro s hs hsid
      simp only [List.mem_singleton] at hs
      exact hs)
  exact h.1

/-- confirmSelection failure modes. -/
inductive ConfirmError
  | SessionExpired
  | NoAccountsSelected
  | SessionNotFound
deriving DecidableEq, Repr

/-- Fixed session TTL (seconds): 15 minutes. -/
def sessionTTL : Nat := 900

/-- Modelled from the spec: confirmSelection(session_id, account_ids).
The session must exist and be inside its TTL (expiry is checked even for
a superficially valid id), the selection must be non-empty; only then
are PlatformConnections created, the session consumed, and the new
connection ids returned.  On failure the state is returned unchanged. -/
def confirmSelection (st : OrchState) (now : Nat) (sid : String)
    (account_ids : List String) :
    OrchState × Except ConfirmError (List String) :=
  match st.sessions.find? (fun s => decide (s.session_id = sid)) with
  | none => (st, Except.error ConfirmError.SessionNotFound)
  | some s =>
    if s.created_at + sessionTTL ≤ now then
      (st, Except.error ConfirmError.SessionExpired)
    else if account_ids.isEmpty then
      (st, Except.error ConfirmError.NoAccountsSelected)
    else
      ({ sessions := st.sessions.filter (fun t => decide (¬ t.session_id = sid))
         connections := st.connections ++ account_ids },
       Except.ok account_ids)

/-- C8: with a session whose TTL has elapsed, confirmSelection fails
with SessionExpired even though the id resolves to a session; with a
live session and an empty selection it fails with NoAccountsSelected;
in both cases the state — in particular the connection list — is
unchanged, so no PlatformConnection is created. -/
theorem C8_confirm_failure_modes (st : OrchState) (now : Nat) (sid : String)
    (account_ids : List String) (s : OAuthSession)
    (hfind : getSession st sid = some s) :
    (s.created_at + sessionTTL ≤ now →
      confirmSelection st now sid account_ids =
        (st, Except.error ConfirmError.SessionExpired)) ∧
    (now < s.created_at + sessionTTL → account_ids = [] →
      confirmSelection st now sid account_ids =
        (st, Except.error ConfirmError.NoAccountsSelected)) := by
  rw [getSession] at hfind
  constructor
  · intro httl
    rw [confirmSelection, hfind]
    simp only [if_pos httl]
  · intro httl hempty
    rw [confirmSelection, hfind]
    subst hempty
    simp only [if_neg (Nat.not_le.mpr httl)]
    rfl

/-- C8 witness: an expired session id still resolving to a session, and
a live session with an empty selection. -/
theorem C8_confirm_failure_modes_witness :
    confirmSelection
      { sessions := [{ session_id := "sid1", platform := Platform.META,
                       organization := "org1", created_at := 0, accounts := ["a1"] }],
        connections := ["c0"] } 900 "sid1" ["a1"] =
      ({ sessions := [{ session_id := "sid1", platform := Platform.META,
                        organization := "org1", created_at := 0, accounts := ["a1"] }],
         connections := ["c0"] }, Except.error ConfirmError.SessionExpired) ∧
    confirmSelection
      { sessions := [{ session_id := "sid1", platform := Platform.META,
                       organization := "org1", created_at := 0, accounts := ["a1"] }],
        connections := ["c0"] } 100 "sid1" [] =
      ({ sessions := [{ session_id := "sid1", platform := Platform.META,
                        organization := "org1", created_at := 0, accounts := ["a1"] }],
         connections := ["c0"] }, Except.error ConfirmError.NoAccountsSelected) := by
  constructor
  · exact (C8_confirm_failure_modes
      { sessions := [{ session_id := "sid1", platform := Platform.META,
                       organization := "org1", created_at := 0, accounts := ["a1"] }],
        connections := ["c0"] } 900 "sid1" ["a1"]
      { session_id := "sid1", platform := Platform.META,
        organization := "org1", created_at := 0, accounts := ["a1"] }
      rfl).1 (by decide)
  · exact (C8_confirm_failure_modes
      { sessions := [{ session_id := "sid1", platform := Platform.META,
                       organization := "org1", created_at := 0, accounts := ["a1"] }],
        connections := ["c0"] } 100 "sid1" []
      { session_id := "sid1", platform := Platform.META,
        organization := "org1", created_at := 0, accounts := ["a1"] }
      rfl).2 (by decide) rfl

/-- The token pair returned by the backend auth endpoints
(frontend AuthService). -/
structure AuthTokens where
  access_token : String
  refresh_token : String
deriving DecidableEq, Repr

/-- The part of an Angular HttpErrorResponse the interceptor inspects. -/
structure HttpErrorResponse where
  status : Nat
deriving DecidableEq, Repr

/-- An outgoing HTTP request: its URL and Authorization header. -/
structure HttpReq where
  url : String
  authHeader : Option String
deriving DecidableEq, Repr

/-- req.clone with an Authorization Bearer header set. -/
def setBearer (req : HttpReq) (tok : String) : HttpReq :=
  { req with authHeader := some ("Bearer " ++ tok) }

def charsHasSub (needle : List Char) : List Char → Bool
  | [] => needle.isEmpty
  | c :: rest => needle.isPrefixOf (c :: rest) || charsHasSub needle rest

/-- req.url.includes of the auth path segment, from the interceptor
condition. -/
def urlHasAuthSegment (u : String) : Bool :=
  charsHasSub "/auth/".toList u.toList

/-- The observable side effects of one interceptor run, in order. -/
inductive InterceptAction
  | nextCall (req : HttpReq)
  | refreshCall
  | logoutCall
deriving DecidableEq, Repr

/-- The AuthService token storage (localStorage keys). -/
structure AuthState where
  access : Option String
  refresh : Option String
deriving DecidableEq, Repr

/-- Results the environment supplies to one interceptor run: the first
next() outcome, the retried next() outcome, and the refresh outcome. -/
structure InterceptEnv where
  firstResult : Except HttpErrorResponse String
  retryResult : Except HttpErrorResponse String
  refreshResult : Except HttpErrorResponse AuthTokens

structure InterceptOut where
  actions : List InterceptAction
  outcome : Except HttpErrorResponse String
  auth : AuthState

/-- getAccessToken + the token-conditional clone, from the interceptor. -/
def attachToken (st : AuthState) (req : HttpReq) : HttpReq :=
  match st.access with
  | some tok => setBearer req tok
  | none => req

/-- The auth interceptor (src/frontend/.../auth.interceptor.ts): attach
the stored access token, forward; on a 401 whose request URL lacks the
auth path segment, refresh once and retry once with the new access
token.  The catchError sits downstream of the switchMap, so it fires on
a failure of either the refresh or the retried request: in both cases
the user is logged out (stored tokens cleared) and that failure is
propagated.  Any other error propagates untouched. -/
def authInterceptor (st : AuthState) (req : HttpReq) (env : InterceptEnv) :
    InterceptOut :=
  let authReq := attachToken st req
  match env.firstResult with
  | Except.ok resp =>
    { actions := [InterceptAction.nextCall authReq]
      outcome := Except.ok resp
      auth := st }
  | Except.error e =>
    if e.status = 401 ∧ urlHasAuthSegment req.url = false then
      match env.refreshResult with
      | Except.ok tokens =>
        match env.retryResult with
        | Except.ok resp2 =>
          { actions := [InterceptAction.nextCall authReq,
                        InterceptAction.refreshCall,
                        InterceptAction.nextCall (setBearer req tokens.access_token)]
            outcome := Except.ok resp2
            auth := { access := some tokens.access_token,
                      refresh := some tokens.refresh_token } }
        | Except.error retryError =>
          { actions := [InterceptAction.nextCall authReq,
                        InterceptAction.refreshCall,
                        InterceptAction.nextCall (setBearer req tokens.access_token),
                        InterceptAction.logoutCall]
            outcome := Except.error retryError
            auth := { access := none, refresh := none } }
      | Except.error refreshError =>
        { actions := [InterceptAction.nextCall authReq,
                      InterceptAction.refreshCall,
                      InterceptAction.logoutCall]
          outcome := Except.error refreshError
          auth := { access := none, refresh := none } }
    else
      { actions := [InterceptAction.nextCall authReq]
        outcome := Except.error e
        auth := st }

/-- C9: on a 401 for a non-auth URL the interceptor performs exactly one
refresh and retries exactly once with the new access token; a
successful retry is returned with the new tokens stored, while a failed
retry — like a failed refresh — logs the user out (clears the stored
tokens) and propagates that failure; a 401 on an auth URL propagates
with no refresh and no retry. -/
theorem C9_interceptor_401_refresh_retry (st : AuthState) (req : HttpReq)
    (env : InterceptEnv) (e : HttpErrorResponse)
    (hfail : env.firstResult = Except.error e) (h401 : e.status = 401) :
    (urlHasAuthSegment req.url = false →
      (∀ tokens : AuthTokens, env.refreshResult = Except.ok tokens →
        (∀ resp2 : String, env.retryResult = Except.ok resp2 →
          authInterceptor st req env =
            { actions := [InterceptAction.nextCall (attachToken st req),
                          InterceptAction.refreshCall,
                          InterceptAction.nextCall (setBearer req tokens.access_token)]
              outcome := Except.ok resp2
              auth := { access := some tokens.access_token,
                        refresh := some tokens.refresh_token } }) ∧
        (∀ retryError : HttpErrorResponse,
          env.retryResult = Except.error retryError →
          authInterceptor st req env =
            { actions := [InterceptAction.nextCall (attachToken st req),
                          InterceptAction.refreshCall,
                          InterceptAction.nextCall (setBearer req tokens.access_token),
                          InterceptAction.logoutCall]
              outcome := Except.error retryError
              auth := { access := none, refresh := none } })) ∧
      (∀ refreshError : HttpErrorResponse,
        env.refreshResult = Except.error refreshError →
        authInterceptor st req env =
          { actions := [InterceptAction.nextCall (attachToken st req),
                        InterceptAction.refreshCall,
                        InterceptAction.logoutCall]
            outcome := Except.error refreshError
            auth := { access := none, refresh := none } })) ∧
    (urlHasAuthSegment req.url = true →
      authInterceptor st req env =
        { actions := [InterceptAction.nextCall (attachToken st req)]
          outcome := Except.error e
          auth := st }) := by
  constructor
  · intro hurl
    constructor
    · intro tokens hrefresh
      constructor
      · intro resp2 hretry
        rw [authInterceptor, hfail]
        simp only [if_pos (And.intro h401 hurl), hrefresh, hretry]
      · intro retryError hretry
        rw [authInterceptor, hfail]
        simp only [if_pos (And.intro h401 hurl), hrefresh, hretry]
    · intro refreshError hrefresh
      rw [authInterceptor, hfail]
      simp only [if_pos (And.intro h401 hurl), hrefresh]
  · intro hurl
    rw [authInterceptor, hfail]
    have hcond : ¬ (e.status = 401 ∧ urlHasAuthSegment req.url = false) := by
      intro hc
      rw [hurl] at hc
      simp at hc
    simp only [if_neg hcond]

/-- C9 witness: a 401 on a non-auth URL with a successful refresh and a
successful retry, the same with a failed retry (logout, retry error
propagated), and a 401 on an auth URL. -/
theorem C9_interceptor_401_refresh_retry_witness :
    authInterceptor
      { access := some "oldA", refresh := some "oldR" }
      { url := "/api/v1/assets", authHeader := none }
      { firstResult := Except.error { status := 401 },
        retryResult := Except.ok "retried",
        refreshResult := Except.ok { access_token := "newA", refresh_token := "newR" } } =
      { actions := [InterceptAction.nextCall
                      { url := "/api/v1/assets", authHeader := some "Bearer oldA" },
                    InterceptAction.refreshCall,
                    InterceptAction.nextCall
                      { url := "/api/v1/assets", authHeader := some "Bearer newA" }]
        outcome := Except.ok "retried"
        auth := { access := some "newA", refresh := some "newR" } } ∧
    authInterceptor
      { access := some "oldA", refresh := some "oldR" }
      { url := "/api/v1/assets", authHeader := none }
      { firstResult := Except.error { status := 401 },
        retryResult := Except.error { status := 500 },
        refreshResult := Except.ok { access_token := "newA", refresh_token := "newR" } } =
      { actions := [InterceptAction.nextCall
                      { url := "/api/v1/assets", authHeader := some "Bearer oldA" },
                    InterceptAction.refreshCall,
                    InterceptAction.nextCall
                      { url := "/api/v1/assets", authHeader := some "Bearer newA" },
                    InterceptAction.logoutCall]
        outcome := Except.error { status := 500 }
        auth := { access := none, refresh := none } } ∧
    authInterceptor
      { access := some "oldA", refresh := some "oldR" }
      { url := "/api/v1/auth/login", authHeader := none }
      { firstResult := Except.error { status := 401 },
        retryResult := Except.ok "unused",
        refreshResult := Except.ok { access_token := "x", refresh_token := "y" } } =
      { actions := [InterceptAction.nextCall
                      { url := "/api/v1/auth/login", authHeader := some "Bearer oldA" }]
        outcome := Except.error { status := 401 }
        auth := { access := some "oldA", refresh := some "oldR" } } := by
  refine ⟨?_, ?_, ?_⟩
  · exact (((C9_interceptor_401_refresh_retry
      { access := some "oldA", refresh := some "oldR" }
      { url := "/api/v1/assets", authHeader := none }
      { firstResult := Except.error { status := 401 },
        retryResult := Except.ok "retried",
        refreshResult := Except.ok { access_token := "newA", refresh_token := "newR" } }
      { status := 401 } rfl rfl).1 rfl).1
      { access_token := "newA", refresh_token := "newR" } rfl).1 "retried" rfl
  · exact (((C9_interceptor_401_refresh_retry
      { access := some "oldA", refresh := some "oldR" }
      { url := "/api/v1/assets", authHeader := none }
      { firstResult := Except.error { status := 401 },
        retryResult := Except.error { status := 500 },
        refreshResult := Except.ok { access_token := "newA", refresh_token := "newR" } }
      { status := 401 } rfl rfl).1 rfl).1
      { access_token := "newA", refresh_token := "newR" } rfl).2 { status := 500 } rfl
  · exact ((C9_interceptor_401_refresh_retry
      { access := some "oldA", refresh := some "oldR" }
      { url := "/api/v1/auth/login", authHeader := none }
      { firstResult := Except.error { status := 401 },
        retryResult := Except.ok "unused",
        refreshResult := Except.ok { access_token := "x", refresh_token := "y" } }
      { status := 401 } rfl rfl).2 rfl)

/-- A JavaScript value as it can appear in the params record of
ApiService.get. -/
inductive JsValue
  | jsNull
  | jsUndefined
  | jsStr (s : String)
  | jsNum (n : Int)
  | jsBool (b : Bool)
deriving DecidableEq, Repr

/-- JavaScript String(v). -/
def jsString : JsValue → String
  | JsValue.jsNull => "null"
  | JsValue.jsUndefined => "undefined"
  | JsValue.jsStr s => s
  | JsValue.jsNum n => toString n
  | JsValue.jsBool b => if b then "true" else "false"

/-- v === null || v === undefined, the skip condition in ApiService.get. -/
def isNullish : JsValue → Bool
  | JsValue.jsNull => true
  | JsValue.jsUndefined => true
  | _ => false

/-- HttpParams.set: replace any existing value for the key and record
the new one. -/
def setParam (ps : List (String × String)) (k v : String) :
    List (String × String) :=
  ps.filter (fun p => !(p.1 == k)) ++ [(k, v)]

/-- The forEach loop of ApiService.get over Object.entries(params),
threading the accumulated HttpParams. -/
def buildHttpParamsAux :
    List (String × JsValue) → List (String × String) → List (String × String)
  | [], acc => acc
  | (k, v) :: t, acc =>
    if isNullish v then buildHttpParamsAux t acc
    else buildHttpParamsAux t (setParam acc k (jsString v))

/-- The query construction of ApiService.get from a params record. -/
def buildHttpParams (entries : List (String × JsValue)) :
    List (String × String) :=
  buildHttpParamsAux entries []

/-- ApiService.get: with no params argument the query is empty. -/
def apiGetQuery (params : Option (List (String × JsValue))) :
    List (String × String) :=
  match params with
  | none => []
  | some entries => buildHttpParams entries

theorem setParam_fresh (ps : List (String × String)) (k v : String)
    (h : ∀ p ∈ ps, p.1 ≠ k) : setParam ps k v = ps ++ [(k, v)] := by
  unfold setParam
  congr 1
  apply List.filter_eq_self.mpr
  intro p hp
  simp [h p hp]

theorem buildHttpParamsAux_eq (entries : List (String × JsValue)) :
    ∀ acc : List (String × String),
    (∀ kv ∈ entries, ∀ p ∈ acc, p.1 ≠ kv.1) →
    (entries.map Prod.fst).Nodup →
    buildHttpParamsAux entries acc =
      acc ++ entries.filterMap
        (fun kv => if isNullish kv.2 then none else some (kv.1, jsString kv.2)) := by
  induction entries with
  | nil => intro acc _ _; simp [buildHttpParamsAux]
  | cons kv t ih =>
    intro acc hdisj hnodup
    obtain ⟨k, v⟩ := kv
    have hnodup2 := (List.nodup_cons.mp hnodup).2
    have hknot := (List.nodup_cons.mp hnodup).1
    by_cases hn : isNullish v = true
    · show (if isNullish v then buildHttpParamsAux t acc
        else buildHttpParamsAux t (setParam acc k (jsString v))) = _
      rw [if_pos hn]
      rw [ih acc (fun kv2 h2 p hp => hdisj kv2 (List.mem_cons_of_mem _ h2) p hp)
        hnodup2]
      simp [List.filterMap_cons, hn]
    · show (if isNullish v then buildHttpParamsAux t acc
        else buildHttpParamsAux t (setParam acc k (jsString v))) = _
      rw [if_neg hn]
      have hfresh : ∀ p ∈ acc, p.1 ≠ k :=
        fun p hp => hdisj (k, v) (List.mem_cons_self _ _) p hp
      rw [setParam_fresh acc k (jsString v) hfresh]
      have hdisj2 : ∀ kv2 ∈ t, ∀ p ∈ acc ++ [(k, jsString v)], p.1 ≠ kv2.1 := by
        intro kv2 h2 p hp
        rcases List.mem_append.mp hp with hp1 | hp2
        · exact hdisj kv2 (List.mem_cons_of_mem _ h2) p hp1
        · rcases List.mem_singleton.mp hp2 with rfl
          intro hcontra
          exact hknot (hcontra ▸ List.mem_map_of_mem Prod.fst h2)
      rw [ih (acc ++ [(k, jsString v)]) hdisj2 hnodup2]
      rw [List.append_assoc]
      simp [List.filterMap_cons, hn]

/-- C10: for ApiService.get, params entries whose value is null or
undefined are omitted from the query, every other entry is sent as
String(v) under its key, and a missing params argument yields an empty
query. -/
theorem C10_get_omits_nullish_params (entries : List (String × JsValue))
    (hnodup : (entries.map Prod.fst).Nodup) :
    apiGetQuery (some entries) =
      entries.filterMap
        (fun kv => if isNullish kv.2 then none else some (kv.1, jsString kv.2)) ∧
    apiGetQuery none = [] := by
  constructor
  · show buildHttpParamsAux entries [] = _
    rw [buildHttpParamsAux_eq entries [] (by intro kv hkv p hp; cases hp) hnodup]
    rfl
  · rfl

/-- C10 witness: a concrete params record with null and undefined
values mixed in. -/
theorem C10_get_omits_nullish_params_witness :
    apiGetQuery (some
      [("page", JsValue.jsNum 2), ("q", JsValue.jsStr "cats"),
       ("from", JsValue.jsNull), ("to", JsValue.jsUndefined),
       ("flag", JsValue.jsBool true)]) =
      [("page", "2"), ("q", "cats"), ("flag", "true")] := by
  have h := (C10_get_omits_nullish_params
    [("page", JsValue.jsNum 2), ("q", JsValue.jsStr "cats"),
     ("from", JsValue.jsNull), ("to", JsValue.jsUndefined),
     ("flag", JsValue.jsBool true)] (by decide)).1
  rw [h]
  rfl
